import Mathlib

set_option maxRecDepth 100000

/-!
Verification of the Axpert inverter communication core
(`custom_components/axpert_inverter/axpert.py`).

The Python code is shallowly embedded: byte strings become `List Nat`
(each element a byte value 0-255 as produced by the transport), 16-bit
register arithmetic is `Nat` with explicit masking, wall-clock time is a
millisecond counter threaded through an explicit state, and the transport
is a parameter giving each attempt's outcome.  Fallible parsing is
`Option`.
-/

namespace Axpert

/-- Byte list of an ASCII/Latin-1 string literal (code points of its
characters); mirrors how Python byte literals and `str.encode()` behave
on the ASCII command strings used by the driver. -/
def strB (s : String) : List Nat := s.data.map Char.toNat

/-- UTF-8 bytes of a string, as `bytearray(cmd, 'utf8')` produces. -/
def utf8B (s : String) : List Nat := s.toUTF8.toList.map UInt8.toNat

/-! ## Checksum engine (`AxpertInverter._get_crc`) -/

/-- The 8 shift iterations applied per input byte: embedding of the inner
`for _ in range(8)` loop of `_get_crc`, with the Python truthiness test
`if (crc & 0x8000):` rendered as `crc &&& 0x8000 ≠ 0`. -/
def crcShift8 (crc : Nat) : Nat → Nat
  | 0 => crc
  | k + 1 =>
      crcShift8
        (if crc &&& 0x8000 ≠ 0 then ((crc <<< 1) ^^^ 0x1021) &&& 0xFFFF
         else (crc <<< 1) &&& 0xFFFF) k

/-- The outer byte loop of `_get_crc`: `crc ^= byte << 8` followed by the
8 shift iterations, for each byte of the input. -/
def crcLoop : Nat → List Nat → Nat
  | crc, [] => crc
  | crc, b :: rest => crcLoop (crcShift8 (crc ^^^ (b <<< 8)) 8) rest

/-- Embedding of `AxpertInverter._get_crc` on a byte sequence: CRC-16
register run from 0, split into high/low bytes, each bumped by one when it
collides with `(` (0x28), CR (0x0d) or LF (0x0a); result `[high, low]`. -/
def get_crc (da : List Nat) : List Nat :=
  let crc := crcLoop 0 da
  let low := crc &&& 0xFF
  let high := (crc >>> 8) &&& 0xFF
  let low2 := if low = 0x28 ∨ low = 0x0d ∨ low = 0x0a then low + 1 else low
  let high2 := if high = 0x28 ∨ high = 0x0d ∨ high = 0x0a then high + 1 else high
  [high2, low2]

/-- `_get_crc` applied to a `str` argument: the `isinstance(cmd, str)`
branch encodes the text as UTF-8 first. -/
def get_crc_of_str (s : String) : List Nat := get_crc (utf8B s)

/-! Reference formulation of the checksum, stated from the specification
text (§4.1) for the refinement comparison: one round is "if the high bit
is set, shift left and XOR with polynomial 0x1021, masking to 16 bits;
else shift left and mask"; a byte is folded in by XOR into the high half
followed by 8 rounds; output bytes are escaped individually. -/

/-- One shift round of the specification's checksum description, with
"the high bit is set" read as `Nat.testBit _ 15`. -/
def specRound (crc : Nat) : Nat :=
  if Nat.testBit crc 15 then ((crc <<< 1) ^^^ 0x1021) &&& 0xFFFF
  else (crc <<< 1) &&& 0xFFFF

/-- The specification's escape step: an output byte equal to `0x28`,
`0x0D` or `0x0A` is incremented by one. -/
def specEscape (b : Nat) : Nat :=
  if b = 0x28 ∨ b = 0x0d ∨ b = 0x0a then b + 1 else b

/-- Register value after folding all input bytes, per the specification:
initial register 0, each byte XORed into the high half then 8 rounds. -/
def specRegister (da : List Nat) : Nat :=
  da.foldl (fun crc b => specRound^[8] (crc ^^^ (b <<< 8))) 0

/-- The specification's checksum: big-endian output (high byte, low
byte), each escaped. -/
def checksumRef (da : List Nat) : List Nat :=
  [specEscape ((specRegister da >>> 8) &&& 0xFF), specEscape (specRegister da &&& 0xFF)]

/-! ## Response extraction (`send_command`, lines 234-287) -/

/-- The `valid_chars` byte set of `send_command`:
`set(b"ABCDEFGHIJKLMNOPQRSTUVWXYZ0123456789 (.-:")`. -/
def valid_chars : List Nat := strB "ABCDEFGHIJKLMNOPQRSTUVWXYZ0123456789 (.-:"

/-- Membership in `valid_chars` (Python `b in valid_chars`). -/
def isValidChar (b : Nat) : Bool := valid_chars.contains b

/-- `response[:-2]`, the data part of the standard split. -/
def stdData (resp : List Nat) : List Nat := resp.take (resp.length - 2)

/-- `response[-2:]`, the received checksum of the standard split. -/
def stdCrc (resp : List Nat) : List Nat := resp.drop (resp.length - 2)

/-- The smart-recovery scan, `for i in range(len(response)-2, 0, -1)`:
called with index `n`, it tests the prefix of length `n` (all bytes in
`valid_chars` and the 2 bytes after it equal to its recomputed checksum)
and on failure recurses down to length 1.  Returns the recovered data (if
any) together with the number of `_get_crc` calls performed on response
data, used for the instrumentation events. -/
def smartScan (resp : List Nat) : Nat → Option (List Nat) × Nat
  | 0 => (none, 0)
  | i + 1 =>
      let cand := resp.take (i + 1)
      if cand.all isValidChar then
        if get_crc cand = (resp.drop (i + 1)).take 2 then (some cand, 1)
        else
          let r := smartScan resp i
          (r.1, r.2 + 1)
      else smartScan resp i

/-- Selection of `raw_data` from the CR-stripped response in
`send_command`: standard split when its checksum matches, otherwise the
smart scan, otherwise the unverified standard split; responses of at most
2 bytes are passed through unchanged. -/
def extractRaw (resp : List Nat) : List Nat :=
  if 2 < resp.length then
    if get_crc (stdData resp) = stdCrc resp then stdData resp
    else
      match (smartScan resp (resp.length - 2)).1 with
      | some c => c
      | none => stdData resp
  else resp

/-- Number of `_get_crc` calls made on response data while selecting
`raw_data` (1 for the standard split plus one per valid-prefix candidate
tried by the smart scan). -/
def crcCallCount (resp : List Nat) : Nat :=
  if 2 < resp.length then
    if get_crc (stdData resp) = stdCrc resp then 1
    else 1 + (smartScan resp (resp.length - 2)).2
  else 0

/-! ## Decoding and cleaning (`send_command`, lines 289-304) -/

/-- Python `str` whitespace relevant under Latin-1 decoding: the byte
values whose decoded characters `str.strip()`/`str.split()` treat as
whitespace. -/
def isPyWs (b : Nat) : Bool :=
  [9, 10, 11, 12, 13, 28, 29, 30, 31, 32, 133, 160].contains b

/-- `str.strip()`: drop leading and trailing whitespace. -/
def stripWs (s : List Nat) : List Nat :=
  ((s.dropWhile isPyWs).reverse.dropWhile isPyWs).reverse

/-- Helper for the `'('` marker removal: everything after the first `(`. -/
def afterParen : List Nat → List Nat
  | [] => []
  | b :: rest => if b = 40 then rest else afterParen rest

/-- `if '(' in decoded: decoded = decoded[decoded.find('(')+1:]`. -/
def dropThroughParen (s : List Nat) : List Nat :=
  if 40 ∈ s then afterParen s else s

/-- The decode-and-clean stage of `send_command`: Latin-1 decoding is the
identity on byte values, then NUL bytes are removed, surrounding
whitespace stripped, and everything up to and including the first `(`
dropped. -/
def decodeClean (raw : List Nat) : List Nat :=
  dropThroughParen (stripWs (raw.filter (fun b => b ≠ 0)))

/-! ## The command/response engine (`send_command`)

Wall-clock time is a millisecond counter.  Each attempt's transport
behaviour is an input: either the byte sequence `read_until` returned
(possibly empty), or a USB-level exception raised during
open/claim/write.  The trace records the externally visible actions:
device opens (with the vendor/product ids used), frame transmissions,
sleeps, and checksum computations over response data. -/

/-- Observable actions of one `send_command` call. -/
inductive Ev where
  | openUsb (vid pid : Nat)
  | transmit (frame : List Nat)
  | sleep (ms : Nat)
  | crcResp
deriving DecidableEq

/-- Outcome of the transport during one attempt. -/
inductive TransportResult where
  | ok (resp : List Nat)
  | exn
deriving DecidableEq

/-- Result of a whole `send_command` call: the decoded payload (or the
`ACK` sentinel string), or one of the surfaced failures. -/
inductive SendResult where
  | ok (payload : List Nat)
  | errNoResponse
  | errNotSupported
  | errTransport
deriving DecidableEq

/-- Outcome of one attempt: terminal, or restart the loop (`continue` /
caught exception on the first attempt). -/
inductive AOut where
  | done (r : SendResult)
  | retry
deriving DecidableEq

/-- State of an `AxpertInverter` handle plus the clock: the stored (and
unused) `device_path`, `_last_command_time`, and the current time in
milliseconds. -/
structure MState where
  devicePath : List Nat
  lastCommandTime : Nat
  now : Nat
deriving DecidableEq

/-- `full_command = command.encode() + crc + b'\r'` (line 201). -/
def frameFor (cmd : List Nat) : List Nat := cmd ++ get_crc cmd ++ [13]

/-- One iteration of the `for attempt in range(2)` loop of
`send_command`, from opening the USB device to the `finally` block that
stamps `_last_command_time`.  `first` tells whether this is attempt 0
(which retries on NAK after a 1 s sleep and on transport errors after a
0.5 s sleep) or attempt 1 (which raises).  `d` is the time the transport
interaction itself takes. -/
def processAttempt (first : Bool) (st : MState) (cmd : List Nat)
    (tr : TransportResult) (d : Nat) : List Ev × MState × AOut :=
  match tr with
  | .exn =>
      -- usb.core exception during open/claim/write, caught at line 306
      let t := st.now + d
      if first then
        ([.openUsb 0x0665 0x5161, .sleep 500],
         { st with now := t + 500, lastCommandTime := t + 500 }, .retry)
      else
        ([.openUsb 0x0665 0x5161],
         { st with now := t, lastCommandTime := t }, .done .errTransport)
  | .ok resp =>
      let evs := [Ev.openUsb 0x0665 0x5161, Ev.transmit (frameFor cmd)]
      let t := st.now + d
      if resp = [] then
        -- `raise Exception("No response from inverter")`, caught below
        if first then
          (evs ++ [.sleep 500],
           { st with now := t + 500, lastCommandTime := t + 500 }, .retry)
        else
          (evs, { st with now := t, lastCommandTime := t }, .done .errNoResponse)
      else
        let r := if resp.getLast? = some 13 then resp.dropLast else resp
        if r = strB "(ACK" ∨ r = strB "ACK" then
          (evs, { st with now := t, lastCommandTime := t }, .done (.ok (strB "ACK")))
        else if r = strB "(NAK" ∨ r = strB "NAK" then
          if first then
            (evs ++ [.sleep 1000],
             { st with now := t + 1000, lastCommandTime := t + 1000 }, .retry)
          else
            (evs, { st with now := t, lastCommandTime := t }, .done .errNotSupported)
        else
          (evs ++ List.replicate (crcCallCount r) Ev.crcResp,
           { st with now := t, lastCommandTime := t },
           .done (.ok (decodeClean (extractRaw r))))

/-- Embedding of `AxpertInverter.send_command`: pacing to 500 ms since
`_last_command_time`, then at most two attempts.  (The final `.retry`
branch is unreachable: a non-first attempt never yields `.retry`.) -/
def send_command (st : MState) (cmd : List Nat) (tr1 tr2 : TransportResult)
    (d1 d2 : Nat) : List Ev × SendResult × MState :=
  let gap := st.now - st.lastCommandTime
  let pr :=
    if gap < 500 then
      (([Ev.sleep (500 - gap)] : List Ev), { st with now := st.now + (500 - gap) })
    else ([], st)
  let a1 := processAttempt true pr.2 cmd tr1 d1
  match a1.2.2 with
  | .done r => (pr.1 ++ a1.1, r, a1.2.1)
  | .retry =>
      let a2 := processAttempt false a1.2.1 cmd tr2 d2
      match a2.2.2 with
      | .done r => (pr.1 ++ a1.1 ++ a2.1, r, a2.2.1)
      | .retry => (pr.1 ++ a1.1 ++ a2.1, .errTransport, a2.2.1)

/-! ## Setter commands -/

/-- Python substring test `needle in hay` on strings. -/
def containsSub (needle : List Nat) : List Nat → Bool
  | [] => needle.isEmpty
  | b :: rest => needle.isPrefixOf (b :: rest) || containsSub needle rest

/-- Decimal digits (ASCII, most significant first) of a natural number,
as Python's `str`/format produce them. -/
def natDigitsAux : Nat → Nat → List Nat
  | 0, _ => []
  | fuel + 1, n =>
      if n < 10 then [48 + n] else natDigitsAux fuel (n / 10) ++ [48 + n % 10]

/-- ASCII decimal representation of a natural number. -/
def natDigits (n : Nat) : List Nat := natDigitsAux (n + 1) n

/-- Left-pad with ASCII `0` to width `w`. -/
def leftPad0 (w : Nat) (l : List Nat) : List Nat :=
  List.replicate (w - l.length) 48 ++ l

/-- Python `f"{n:03}"`: zero-padded to total width 3 (sign included). -/
def formatInt03 (n : ℤ) : List Nat :=
  if n < 0 then 45 :: leftPad0 2 (natDigits n.natAbs)
  else leftPad0 3 (natDigits n.toNat)

/-- `set_max_charging_current`: sends `MNCHGC{current:03}` and returns
`"ACK" in response`; a `send_command` failure propagates (`none`). -/
def set_max_charging_current (st : MState) (current : ℤ)
    (tr1 tr2 : TransportResult) (d1 d2 : Nat) : List Ev × Option Bool × MState :=
  let r := send_command st (strB "MNCHGC" ++ formatInt03 current) tr1 tr2 d1 d2
  (r.1,
   match r.2.1 with
   | .ok s => some (containsSub (strB "ACK") s)
   | _ => none,
   r.2.2)

/-- `set_output_source_priority`: sends `POP{priority}` and returns
`"ACK" in response`. -/
def set_output_source_priority (st : MState) (priority : List Nat)
    (tr1 tr2 : TransportResult) (d1 d2 : Nat) : List Ev × Option Bool × MState :=
  let r := send_command st (strB "POP" ++ priority) tr1 tr2 d1 d2
  (r.1,
   match r.2.1 with
   | .ok s => some (containsSub (strB "ACK") s)
   | _ => none,
   r.2.2)

/-! ## Status decoder (`get_general_status`)

The parsing stage applied to the decoded payload returned by
`send_command("QPIGS")`.  Python's `int()`/`float()` are modelled on the
decimal literal forms (optional sign, digits, optional fraction) the
protocol produces; any other input makes them fail, as the builtins
raise `ValueError`.  An out-of-range list index models `IndexError`.
Both exceptions are caught by the `except (ValueError, IndexError)`
handler, which returns the empty mapping. -/

/-- `str.split()` with no arguments: split on runs of whitespace,
discarding empty tokens. -/
def splitWs (s : List Nat) : List (List Nat) :=
  let r := s.foldr
    (fun b (acc : List (List Nat) × List Nat) =>
      if isPyWs b then (if acc.2 = [] then acc else (acc.2 :: acc.1, []))
      else (acc.1, b :: acc.2))
    ([], [])
  if r.2 = [] then r.1 else r.2 :: r.1

/-- ASCII decimal digit test. -/
def isDigitB (b : Nat) : Bool := 48 ≤ b && b ≤ 57

/-- Value of a digit string (meaningful when all bytes are digits). -/
def natOfDigits (l : List Nat) : Nat := l.foldl (fun a b => a * 10 + (b - 48)) 0

/-- A non-empty all-digit string, or failure. -/
def digitsVal? (l : List Nat) : Option Nat :=
  if l ≠ [] ∧ l.all isDigitB then some (natOfDigits l) else none

/-- Python `int(s)` restricted to the optional-sign decimal form. -/
def pyInt? (l : List Nat) : Option ℤ :=
  match l with
  | 43 :: rest => (digitsVal? rest).map Int.ofNat
  | 45 :: rest => (digitsVal? rest).map (fun n => -(n : ℤ))
  | _ => (digitsVal? l).map Int.ofNat

/-- Unsigned decimal-point number: digits, optionally a single point with
digit fraction, at least one digit overall.  Exact value as a rational. -/
def floatBody? (l : List Nat) : Option ℚ :=
  let ip := l.takeWhile (fun b => b ≠ 46)
  match l.dropWhile (fun b => b ≠ 46) with
  | [] => (digitsVal? ip).map (fun n => (n : ℚ))
  | 46 :: fp =>
      if ip = [] ∧ fp = [] then none
      else if ip.all isDigitB ∧ fp.all isDigitB then
        some ((natOfDigits ip : ℚ) + (natOfDigits fp : ℚ) / 10 ^ fp.length)
      else none
  | _ :: _ => none

/-- Python `float(s)` restricted to the signed decimal form. -/
def pyFloat? (l : List Nat) : Option ℚ :=
  match l with
  | 43 :: rest => floatBody? rest
  | 45 :: rest => (floatBody? rest).map Neg.neg
  | _ => floatBody? l

/-- A decoded field value of the status mapping. -/
inductive Val where
  | f (q : ℚ)
  | i (z : ℤ)
  | s (raw : List Nat)
deriving DecidableEq

/-- `float(parts[i])`: `IndexError` or `ValueError` become `none`. -/
def fieldFloat (parts : List (List Nat)) (i : Nat) : Option ℚ :=
  (parts.get? i).bind pyFloat?

/-- `int(parts[i])`: `IndexError` or `ValueError` become `none`. -/
def fieldInt (parts : List (List Nat)) (i : Nat) : Option ℤ :=
  (parts.get? i).bind pyInt?

/-- Decodes of `parts[0]`-`parts[5]` (grid/ac-output block of the dict
literal), all-or-nothing. -/
def qpigsA (parts : List (List Nat)) : Option (ℚ × ℚ × ℚ × ℚ × ℤ × ℤ) := do
  let g0 ← fieldFloat parts 0
  let g1 ← fieldFloat parts 1
  let g2 ← fieldFloat parts 2
  let g3 ← fieldFloat parts 3
  let g4 ← fieldInt parts 4
  let g5 ← fieldInt parts 5
  pure (g0, g1, g2, g3, g4, g5)

/-- Decodes of `parts[6]`-`parts[11]` (load/bus/battery block), all-or-
nothing. -/
def qpigsB (parts : List (List Nat)) : Option (ℤ × ℤ × ℚ × ℤ × ℤ × ℤ) := do
  let g6 ← fieldInt parts 6
  let g7 ← fieldInt parts 7
  let g8 ← fieldFloat parts 8
  let g9 ← fieldInt parts 9
  let g10 ← fieldInt parts 10
  let g11 ← fieldInt parts 11
  pure (g6, g7, g8, g9, g10, g11)

/-- Decodes of `parts[12]`-`parts[16]` (pv/scc/status block), all-or-
nothing. -/
def qpigsC (parts : List (List Nat)) : Option (ℚ × ℚ × ℚ × ℤ × List Nat) := do
  let g12 ← fieldFloat parts 12
  let g13 ← fieldFloat parts 13
  let g14 ← fieldFloat parts 14
  let g15 ← fieldInt parts 15
  let g16 ← parts.get? 16
  pure (g12, g13, g14, g15, g16)

/-- The body of the `try` block of `get_general_status`: build the full
mapping, then — when more than 16 fields are present — decode
`parts[19]` as `pv_charging_power`.  A failure anywhere yields `none`
(the caught exception). -/
def qpigsData (parts : List (List Nat)) : Option (List (String × Val)) := do
  let (g0, g1, g2, g3, g4, g5) ← qpigsA parts
  let (g6, g7, g8, g9, g10, g11) ← qpigsB parts
  let (g12, g13, g14, g15, g16) ← qpigsC parts
  let base : List (String × Val) :=
    [("grid_voltage", .f g0), ("grid_frequency", .f g1),
     ("ac_output_voltage", .f g2), ("ac_output_frequency", .f g3),
     ("ac_output_apparent_power", .i g4), ("ac_output_active_power", .i g5),
     ("output_load_percent", .i g6), ("bus_voltage", .i g7),
     ("battery_voltage", .f g8), ("battery_charging_current", .i g9),
     ("battery_capacity", .i g10), ("heat_sink_temperature", .i g11),
     ("pv_input_current", .f g12), ("pv_input_voltage", .f g13),
     ("scc_voltage", .f g14), ("battery_discharge_current", .i g15),
     ("status_binary", .s g16)]
  if 16 < parts.length then
    let p19 ← parts.get? 19
    let v19 ← pyInt? p19
    pure (base ++ [("pv_charging_power", .i v19)])
  else
    pure base

/-- Embedding of the parsing stage of `AxpertInverter.get_general_status`
on the decoded payload: empty payload or fewer than 16 whitespace
fields yield the empty mapping, as does any parse/index failure inside
the `try` block. -/
def get_general_status (raw : List Nat) : List (String × Val) :=
  if raw = [] then []
  else
    let parts := splitWs raw
    if parts.length < 16 then []
    else
      match qpigsData parts with
      | some d => d
      | none => []

/-- The 17 field names always present in a successful decode, in
insertion order. -/
def qpigsKeys : List String :=
  ["grid_voltage", "grid_frequency", "ac_output_voltage",
   "ac_output_frequency", "ac_output_apparent_power",
   "ac_output_active_power", "output_load_percent", "bus_voltage",
   "battery_voltage", "battery_charging_current", "battery_capacity",
   "heat_sink_temperature", "pv_input_current", "pv_input_voltage",
   "scc_voltage", "battery_discharge_current", "status_binary"]


/-! ## Event counting -/

/-- Is this event a device open? -/
def isOpenEv : Ev → Bool
  | .openUsb _ _ => true
  | _ => false

/-- Is this event a response-side checksum computation? -/
def isCrcEv : Ev → Bool
  | .crcResp => true
  | _ => false

/-- Number of device opens in a trace (= number of attempts started). -/
def countOpen (evs : List Ev) : Nat := evs.countP isOpenEv

/-- Number of response-side checksum computations in a trace. -/
def countCrc (evs : List Ev) : Nat := evs.countP isCrcEv

/-- The pacing sleep events of a call: a single sleep of the remainder
when less than 500 ms elapsed since `_last_command_time`. -/
def paceEvs (st : MState) : List Ev :=
  if st.now - st.lastCommandTime < 500 then
    [Ev.sleep (500 - (st.now - st.lastCommandTime))]
  else []

/-- The state after the pacing sleep. -/
def paceSt (st : MState) : MState :=
  if st.now - st.lastCommandTime < 500 then
    { st with now := st.now + (500 - (st.now - st.lastCommandTime)) }
  else st

/-! # Lemmas -/

/-! ### Checksum lemmas -/

lemma crcShift8_eq_iterate (crc : Nat) (k : Nat) : crcShift8 crc k = specRound^[k] crc := by
  induction k generalizing crc with
  | zero => rfl
  | succ k ih =>
      rw [Function.iterate_succ_apply]
      rw [crcShift8, ih]
      congr 1
      unfold specRound
      have h15 : crc &&& 0x8000 = (crc.testBit 15).toNat * 2 ^ 15 := by
        have := Nat.and_two_pow crc 15
        norm_num at this ⊢
        exact this
      by_cases h : crc.testBit 15
      · simp [h] at h15
        simp [h, h15]
      · simp [h] at h15
        simp [h, h15]

lemma crcLoop_eq_foldl (da : List Nat) (crc : Nat) :
    crcLoop crc da = da.foldl (fun c b => specRound^[8] (c ^^^ (b <<< 8))) crc := by
  induction da generalizing crc with
  | nil => rfl
  | cons b rest ih =>
      rw [crcLoop, List.foldl_cons, ih, crcShift8_eq_iterate]

lemma get_crc_eq_checksumRef (da : List Nat) : get_crc da = checksumRef da := by
  unfold get_crc checksumRef specRegister specEscape
  rw [crcLoop_eq_foldl]

lemma get_crc_length (da : List Nat) : (get_crc da).length = 2 := rfl

/-! ### Attempt-level lemmas -/

lemma countP_replicate_zero (n : Nat) (e : Ev) (p : Ev → Bool) (hp : p e = false) :
    (List.replicate n e).countP p = 0 := by
  induction n with
  | zero => rfl
  | succ n ih => simp [List.replicate_succ, List.countP_cons, hp, ih]

lemma processAttempt_head (first : Bool) (st : MState) (cmd : List Nat)
    (tr : TransportResult) (d : Nat) :
    (processAttempt first st cmd tr d).1.head? = some (Ev.openUsb 0x0665 0x5161) := by
  cases tr <;> simp only [processAttempt] <;> split_ifs <;> rfl

lemma processAttempt_timestamp (first : Bool) (st : MState) (cmd : List Nat)
    (tr : TransportResult) (d : Nat) :
    ((processAttempt first st cmd tr d).2.1).lastCommandTime
      = ((processAttempt first st cmd tr d).2.1).now := by
  cases tr <;> simp only [processAttempt] <;> split_ifs <;> rfl

lemma processAttempt_countOpen (first : Bool) (st : MState) (cmd : List Nat)
    (tr : TransportResult) (d : Nat) :
    countOpen (processAttempt first st cmd tr d).1 = 1 := by
  cases tr <;> simp only [processAttempt] <;> split_ifs <;>
    simp [countOpen, List.countP_append, List.countP_cons, isOpenEv,
      countP_replicate_zero]

lemma processAttempt_transmit (first : Bool) (st : MState) (cmd : List Nat)
    (tr : TransportResult) (d : Nat) (f : List Nat)
    (h : Ev.transmit f ∈ (processAttempt first st cmd tr d).1) :
    f = frameFor cmd := by
  cases tr <;> simp only [processAttempt] at h <;> split_ifs at h <;>
    simp_all [List.mem_append, List.mem_replicate]

lemma processAttempt_open (first : Bool) (st : MState) (cmd : List Nat)
    (tr : TransportResult) (d : Nat) (v p : Nat)
    (h : Ev.openUsb v p ∈ (processAttempt first st cmd tr d).1) :
    v = 0x0665 ∧ p = 0x5161 := by
  cases tr <;> simp only [processAttempt] at h <;> split_ifs at h <;>
    simp_all [List.mem_append, List.mem_replicate]

lemma processAttempt_second_done (st : MState) (cmd : List Nat)
    (tr : TransportResult) (d : Nat) :
    (processAttempt false st cmd tr d).2.2 ≠ .retry := by
  cases tr <;> simp only [processAttempt] <;> split_ifs <;> simp_all

/-! ### Driver-level lemmas -/

lemma paceEvs_no_transmit (st : MState) (f : List Nat) :
    Ev.transmit f ∉ paceEvs st := by
  unfold paceEvs; split <;> simp

lemma paceEvs_no_open (st : MState) (v p : Nat) :
    Ev.openUsb v p ∉ paceEvs st := by
  unfold paceEvs; split <;> simp

lemma paceEvs_countOpen (st : MState) : countOpen (paceEvs st) = 0 := by
  unfold paceEvs countOpen; split <;> simp [isOpenEv]

lemma send_command_unfold (st : MState) (cmd : List Nat) (tr1 tr2 : TransportResult)
    (d1 d2 : Nat) :
    send_command st cmd tr1 tr2 d1 d2 =
      (let a1 := processAttempt true (paceSt st) cmd tr1 d1
       match a1.2.2 with
       | .done r => (paceEvs st ++ a1.1, r, a1.2.1)
       | .retry =>
           let a2 := processAttempt false a1.2.1 cmd tr2 d2
           match a2.2.2 with
           | .done r => (paceEvs st ++ a1.1 ++ a2.1, r, a2.2.1)
           | .retry => (paceEvs st ++ a1.1 ++ a2.1, .errTransport, a2.2.1)) := by
  unfold send_command paceEvs paceSt
  by_cases hg : st.now - st.lastCommandTime < 500 <;> simp only [hg, if_true, if_false]

lemma send_command_transmit (st : MState) (cmd : List Nat) (tr1 tr2 : TransportResult)
    (d1 d2 : Nat) (f : List Nat)
    (h : Ev.transmit f ∈ (send_command st cmd tr1 tr2 d1 d2).1) :
    f = frameFor cmd := by
  rw [send_command_unfold] at h
  rcases h1 : (processAttempt true (paceSt st) cmd tr1 d1).2.2 with r | _ <;>
    simp only [h1] at h
  case done =>
    rcases List.mem_append.mp h with h | h
    · exact absurd h (paceEvs_no_transmit _ _)
    · exact processAttempt_transmit _ _ _ _ _ _ h
  case retry =>
    rcases h2 : (processAttempt false (processAttempt true (paceSt st) cmd tr1 d1).2.1
        cmd tr2 d2).2.2 with r | _ <;> simp only [h2] at h <;>
      rcases List.mem_append.mp h with h | h <;>
      [skip; exact processAttempt_transmit _ _ _ _ _ _ h;
       skip; exact processAttempt_transmit _ _ _ _ _ _ h] <;>
      rcases List.mem_append.mp h with h | h <;>
      first
        | exact absurd h (paceEvs_no_transmit _ _)
        | exact processAttempt_transmit _ _ _ _ _ _ h

lemma send_command_open (st : MState) (cmd : List Nat) (tr1 tr2 : TransportResult)
    (d1 d2 : Nat) (v p : Nat)
    (h : Ev.openUsb v p ∈ (send_command st cmd tr1 tr2 d1 d2).1) :
    v = 0x0665 ∧ p = 0x5161 := by
  rw [send_command_unfold] at h
  rcases h1 : (processAttempt true (paceSt st) cmd tr1 d1).2.2 with r | _ <;>
    simp only [h1] at h
  case done =>
    rcases List.mem_append.mp h with h | h
    · exact absurd h (paceEvs_no_open _ _ _)
    · exact processAttempt_open _ _ _ _ _ _ _ h
  case retry =>
    rcases h2 : (processAttempt false (processAttempt true (paceSt st) cmd tr1 d1).2.1
        cmd tr2 d2).2.2 with r | _ <;> simp only [h2] at h <;>
      rcases List.mem_append.mp h with h | h <;>
      [skip; exact processAttempt_open _ _ _ _ _ _ _ h;
       skip; exact processAttempt_open _ _ _ _ _ _ _ h] <;>
      rcases List.mem_append.mp h with h | h <;>
      first
        | exact absurd h (paceEvs_no_open _ _ _)
        | exact processAttempt_open _ _ _ _ _ _ _ h

lemma send_command_countOpen (st : MState) (cmd : List Nat) (tr1 tr2 : TransportResult)
    (d1 d2 : Nat) :
    countOpen (send_command st cmd tr1 tr2 d1 d2).1 ≤ 2 := by
  rw [send_command_unfold]
  have hp := paceEvs_countOpen st
  have hc1 := processAttempt_countOpen true (paceSt st) cmd tr1 d1
  have hc2 := processAttempt_countOpen false
    (processAttempt true (paceSt st) cmd tr1 d1).2.1 cmd tr2 d2
  unfold countOpen at hp hc1 hc2 ⊢
  rcases h1 : (processAttempt true (paceSt st) cmd tr1 d1).2.2 with r | _ <;>
    simp only [h1]
  case done => simp [List.countP_append, hp, hc1]
  case retry =>
    rcases h2 : (processAttempt false (processAttempt true (paceSt st) cmd tr1 d1).2.1
        cmd tr2 d2).2.2 with r | _ <;> simp only [h2] <;>
      simp [List.countP_append, hp, hc1, hc2]

lemma send_command_timestamp (st : MState) (cmd : List Nat) (tr1 tr2 : TransportResult)
    (d1 d2 : Nat) :
    (send_command st cmd tr1 tr2 d1 d2).2.2.lastCommandTime
      = (send_command st cmd tr1 tr2 d1 d2).2.2.now := by
  rw [send_command_unfold]
  rcases h1 : (processAttempt true (paceSt st) cmd tr1 d1).2.2 with r | _ <;>
    simp only [h1]
  case done => exact processAttempt_timestamp _ _ _ _ _
  case retry =>
    rcases h2 : (processAttempt false (processAttempt true (paceSt st) cmd tr1 d1).2.1
        cmd tr2 d2).2.2 with r | _ <;> simp only [h2] <;>
      exact processAttempt_timestamp _ _ _ _ _

lemma send_command_head_pace (st : MState) (cmd : List Nat) (tr1 tr2 : TransportResult)
    (d1 d2 : Nat) (hg : st.now - st.lastCommandTime < 500) :
    (send_command st cmd tr1 tr2 d1 d2).1.head?
      = some (Ev.sleep (500 - (st.now - st.lastCommandTime))) := by
  rw [send_command_unfold]
  have hp : paceEvs st = [Ev.sleep (500 - (st.now - st.lastCommandTime))] := by
    unfold paceEvs; rw [if_pos hg]
  rcases h1 : (processAttempt true (paceSt st) cmd tr1 d1).2.2 with r | _ <;>
    simp only [h1]
  case done => simp [hp]
  case retry =>
    rcases h2 : (processAttempt false (processAttempt true (paceSt st) cmd tr1 d1).2.1
        cmd tr2 d2).2.2 with r | _ <;> simp only [h2] <;> simp [hp]

lemma send_command_head_nopace (st : MState) (cmd : List Nat) (tr1 tr2 : TransportResult)
    (d1 d2 : Nat) (hg : ¬ st.now - st.lastCommandTime < 500) :
    (send_command st cmd tr1 tr2 d1 d2).1.head?
      = some (Ev.openUsb 0x0665 0x5161) := by
  rw [send_command_unfold]
  have hp : paceEvs st = [] := by
    unfold paceEvs; rw [if_neg hg]
  rcases h1 : (processAttempt true (paceSt st) cmd tr1 d1).2.2 with r | _ <;>
    simp only [h1]
  case done => rw [hp]; simpa using processAttempt_head true (paceSt st) cmd tr1 d1
  case retry =>
    rcases h2 : (processAttempt false (processAttempt true (paceSt st) cmd tr1 d1).2.1
        cmd tr2 d2).2.2 with r | _ <;> simp only [h2] <;> rw [hp] <;>
      · have hh := processAttempt_head true (paceSt st) cmd tr1 d1
        rcases he : (processAttempt true (paceSt st) cmd tr1 d1).1 with _ | ⟨e, evs⟩
        · rw [he] at hh; simp at hh
        · rw [he] at hh; simp at hh; simp [hh]

/-! ### Smart-scan lemmas -/

lemma smartScan_some_spec (resp : List Nat) :
    ∀ (n : Nat) (d : List Nat), (smartScan resp n).1 = some d →
      ∃ i, 1 ≤ i ∧ i ≤ n ∧
        ((resp.take i).all isValidChar = true ∧
          get_crc (resp.take i) = (resp.drop i).take 2) ∧
        d = resp.take i ∧
        ∀ j, i < j → j ≤ n →
          ¬((resp.take j).all isValidChar = true ∧
            get_crc (resp.take j) = (resp.drop j).take 2) := by
  intro n
  induction n with
  | zero => intro d h; simp [smartScan] at h
  | succ n ih =>
      intro d h
      simp only [smartScan] at h
      by_cases hv : (resp.take (n + 1)).all isValidChar
      · rw [if_pos hv] at h
        by_cases hc : get_crc (resp.take (n + 1)) = (resp.drop (n + 1)).take 2
        · rw [if_pos hc] at h
          simp only [Option.some_inj] at h
          refine ⟨n + 1, by omega, le_refl _, ⟨hv, hc⟩, h.symm, ?_⟩
          intro j hj1 hj2
          omega
        · rw [if_neg hc] at h
          simp only at h
          obtain ⟨i, hi1, hi2, hP, hd, hmax⟩ := ih d h
          refine ⟨i, hi1, by omega, hP, hd, ?_⟩
          intro j hj1 hj2
          rcases Nat.lt_succ_iff_lt_or_eq.mp (Nat.lt_succ_of_le hj2) with hlt | heq
          · exact hmax j hj1 (by omega)
          · subst heq
            exact fun hand => hc hand.2
      · rw [if_neg hv] at h
        obtain ⟨i, hi1, hi2, hP, hd, hmax⟩ := ih d h
        refine ⟨i, hi1, by omega, hP, hd, ?_⟩
        intro j hj1 hj2
        rcases Nat.lt_succ_iff_lt_or_eq.mp (Nat.lt_succ_of_le hj2) with hlt | heq
        · exact hmax j hj1 (by omega)
        · subst heq
          exact fun hand => hv hand.1

lemma smartScan_none_spec (resp : List Nat) :
    ∀ (n : Nat), (smartScan resp n).1 = none →
      ∀ i, 1 ≤ i → i ≤ n →
        ¬((resp.take i).all isValidChar = true ∧
          get_crc (resp.take i) = (resp.drop i).take 2) := by
  intro n
  induction n with
  | zero => intro _ i h1 h2; omega
  | succ n ih =>
      intro h i hi1 hi2
      simp only [smartScan] at h
      by_cases hv : (resp.take (n + 1)).all isValidChar
      · rw [if_pos hv] at h
        by_cases hc : get_crc (resp.take (n + 1)) = (resp.drop (n + 1)).take 2
        · rw [if_pos hc] at h
          simp at h
        · rw [if_neg hc] at h
          simp only at h
          rcases Nat.lt_succ_iff_lt_or_eq.mp (Nat.lt_succ_of_le hi2) with hlt | heq
          · exact ih h i hi1 (by omega)
          · subst heq
            exact fun hand => hc hand.2
      · rw [if_neg hv] at h
        rcases Nat.lt_succ_iff_lt_or_eq.mp (Nat.lt_succ_of_le hi2) with hlt | heq
        · exact ih h i hi1 (by omega)
        · subst heq
          exact fun hand => hv hand.1

/-! ### Status-decoder lemmas -/

lemma qpigsData_keys (parts : List (List Nat)) (d : List (String × Val))
    (h : qpigsData parts = some d) :
    d.map Prod.fst = qpigsKeys ∨ d.map Prod.fst = qpigsKeys ++ ["pv_charging_power"] := by
  unfold qpigsData at h
  cases hA : qpigsA parts with
  | none => rw [hA] at h; simp at h
  | some a =>
      obtain ⟨g0, g1, g2, g3, g4, g5⟩ := a
      rw [hA] at h
      cases hB : qpigsB parts with
      | none => rw [hB] at h; simp at h
      | some b =>
          obtain ⟨g6, g7, g8, g9, g10, g11⟩ := b
          rw [hB] at h
          cases hC : qpigsC parts with
          | none => rw [hC] at h; simp at h
          | some c =>
              obtain ⟨g12, g13, g14, g15, g16⟩ := c
              rw [hC] at h
              simp only [Option.bind_eq_bind, Option.some_bind] at h
              by_cases hl : 16 < parts.length
              · rw [if_pos hl] at h
                cases h19 : parts.get? 19 with
                | none => rw [h19] at h; simp at h
                | some p19 =>
                    rw [h19] at h
                    simp only [Option.some_bind] at h
                    cases hv19 : pyInt? p19 with
                    | none => rw [hv19] at h; simp at h
                    | some v19 =>
                        rw [hv19] at h
                        simp only [Option.some_bind, Option.pure_def,
                          Option.some_inj] at h
                        right
                        rw [← h]
                        simp [qpigsKeys]
              · rw [if_neg hl] at h
                simp only [Option.pure_def, Option.some_inj] at h
                left
                rw [← h]
                simp [qpigsKeys]

/-! ### Frame and fast-path lemmas -/

lemma frameFor_roundtrip (cmd : List Nat) :
    get_crc ((frameFor cmd).dropLast.take ((frameFor cmd).dropLast.length - 2))
      = (frameFor cmd).dropLast.drop ((frameFor cmd).dropLast.length - 2) := by
  have h1 : frameFor cmd = (cmd ++ get_crc cmd) ++ [13] := by
    simp [frameFor, List.append_assoc]
  rw [h1, List.dropLast_concat]
  have hl : (cmd ++ get_crc cmd).length - 2 = cmd.length := by
    simp [List.length_append, get_crc_length]
  rw [hl]
  rw [List.take_left, List.drop_left]

lemma paceEvs_countCrc (st : MState) : countCrc (paceEvs st) = 0 := by
  unfold paceEvs countCrc; split <;> simp [isCrcEv]

lemma processAttempt_ack (first : Bool) (st : MState) (cmd : List Nat) (d : Nat)
    (pre : List Nat) (hpre : pre = strB "(ACK" ∨ pre = strB "ACK") :
    processAttempt first st cmd (.ok (pre ++ [13])) d =
      ([Ev.openUsb 0x0665 0x5161, Ev.transmit (frameFor cmd)],
       { st with now := st.now + d, lastCommandTime := st.now + d },
       .done (.ok (strB "ACK"))) := by
  rcases hpre with h | h <;> subst h <;> rfl

lemma processAttempt_nak_first (st : MState) (cmd : List Nat) (d : Nat)
    (pre : List Nat) (hpre : pre = strB "(NAK" ∨ pre = strB "NAK") :
    processAttempt true st cmd (.ok (pre ++ [13])) d =
      ([Ev.openUsb 0x0665 0x5161, Ev.transmit (frameFor cmd), Ev.sleep 1000],
       { st with now := st.now + d + 1000, lastCommandTime := st.now + d + 1000 },
       .retry) := by
  rcases hpre with h | h <;> subst h <;> rfl

lemma processAttempt_nak_second (st : MState) (cmd : List Nat) (d : Nat)
    (pre : List Nat) (hpre : pre = strB "(NAK" ∨ pre = strB "NAK") :
    processAttempt false st cmd (.ok (pre ++ [13])) d =
      ([Ev.openUsb 0x0665 0x5161, Ev.transmit (frameFor cmd)],
       { st with now := st.now + d, lastCommandTime := st.now + d },
       .done .errNotSupported) := by
  rcases hpre with h | h <;> subst h <;> rfl

/-! ### Device-path independence lemmas -/

lemma processAttempt_path (first : Bool) (p q : List Nat) (l n : Nat) (cmd : List Nat)
    (tr : TransportResult) (d : Nat) :
    (processAttempt first ⟨p, l, n⟩ cmd tr d).1
      = (processAttempt first ⟨q, l, n⟩ cmd tr d).1 ∧
    (processAttempt first ⟨p, l, n⟩ cmd tr d).2.1.lastCommandTime
      = (processAttempt first ⟨q, l, n⟩ cmd tr d).2.1.lastCommandTime ∧
    (processAttempt first ⟨p, l, n⟩ cmd tr d).2.1.now
      = (processAttempt first ⟨q, l, n⟩ cmd tr d).2.1.now ∧
    (processAttempt first ⟨p, l, n⟩ cmd tr d).2.2
      = (processAttempt first ⟨q, l, n⟩ cmd tr d).2.2 := by
  cases tr <;> simp only [processAttempt] <;> split_ifs <;>
    exact ⟨rfl, rfl, rfl, rfl⟩

lemma processAttempt_devicePath (first : Bool) (p : List Nat) (l n : Nat) (cmd : List Nat)
    (tr : TransportResult) (d : Nat) :
    (processAttempt first ⟨p, l, n⟩ cmd tr d).2.1.devicePath = p := by
  cases tr <;> simp only [processAttempt] <;> split_ifs <;> rfl

lemma send_command_path (p q : List Nat) (l n : Nat) (cmd : List Nat)
    (tr1 tr2 : TransportResult) (d1 d2 : Nat) :
    (send_command ⟨p, l, n⟩ cmd tr1 tr2 d1 d2).1
      = (send_command ⟨q, l, n⟩ cmd tr1 tr2 d1 d2).1 ∧
    (send_command ⟨p, l, n⟩ cmd tr1 tr2 d1 d2).2.1
      = (send_command ⟨q, l, n⟩ cmd tr1 tr2 d1 d2).2.1 ∧
    (send_command ⟨p, l, n⟩ cmd tr1 tr2 d1 d2).2.2.lastCommandTime
      = (send_command ⟨q, l, n⟩ cmd tr1 tr2 d1 d2).2.2.lastCommandTime ∧
    (send_command ⟨p, l, n⟩ cmd tr1 tr2 d1 d2).2.2.now
      = (send_command ⟨q, l, n⟩ cmd tr1 tr2 d1 d2).2.2.now := by
  have hpaceP : paceSt ⟨p, l, n⟩
      = (⟨p, l, if n - l < 500 then n + (500 - (n - l)) else n⟩ : MState) := by
    unfold paceSt
    split_ifs <;> rfl
  have hpaceQ : paceSt ⟨q, l, n⟩
      = (⟨q, l, if n - l < 500 then n + (500 - (n - l)) else n⟩ : MState) := by
    unfold paceSt
    split_ifs <;> rfl
  have hpev : paceEvs ⟨p, l, n⟩ = paceEvs ⟨q, l, n⟩ := by
    unfold paceEvs
    split_ifs <;> rfl
  rw [send_command_unfold, send_command_unfold, hpaceP, hpaceQ, hpev]
  set N := if n - l < 500 then n + (500 - (n - l)) else n with hN
  have hA := processAttempt_path true p q l N cmd tr1 d1
  have hAO := hA.2.2.2
  rcases hval : (processAttempt true ⟨p, l, N⟩ cmd tr1 d1).2.2 with r | _ <;>
    rw [hval] at hAO <;> simp only [hval, ← hAO]
  case done =>
    exact ⟨by rw [hA.1], trivial, hA.2.1, hA.2.2.1⟩
  case retry =>
    rcases hSp : (processAttempt true ⟨p, l, N⟩ cmd tr1 d1).2.1 with ⟨dp, lc, nw⟩
    rcases hSq : (processAttempt true ⟨q, l, N⟩ cmd tr1 d1).2.1 with ⟨dq, lcq, nwq⟩
    have hdp : dp = p := by
      have hd := processAttempt_devicePath true p l N cmd tr1 d1
      rw [hSp] at hd
      exact hd
    have hdq : dq = q := by
      have hd := processAttempt_devicePath true q l N cmd tr1 d1
      rw [hSq] at hd
      exact hd
    have hlc : lcq = lc := by
      have h2 := hA.2.1
      rw [hSp, hSq] at h2
      exact h2.symm
    have hnw : nwq = nw := by
      have h2 := hA.2.2.1
      rw [hSp, hSq] at h2
      exact h2.symm
    rw [hdp, hdq, hlc, hnw]
    have hB := processAttempt_path false p q lc nw cmd tr2 d2
    have hBO := hB.2.2.2
    rcases hval2 : (processAttempt false ⟨p, lc, nw⟩ cmd tr2 d2).2.2 with r2 | _ <;>
      rw [hval2] at hBO <;> simp only [hval2, ← hBO] <;>
      exact ⟨by rw [hA.1, hB.1], trivial, hB.2.1, hB.2.2.1⟩

/-! # Claim theorems -/

/-- C1: for every CR-stripped response longer than 2 bytes that is not an
ACK/NAK sentinel and whose standard split fails checksum validation,
`send_command`'s attempt still succeeds with a decoded payload built from
`extractRaw`, and `extractRaw` picks the prefix `response[:i]` for the
largest `i` in `[1, len-2]` whose bytes all lie in the allowed character
set and whose recomputed checksum equals `response[i:i+2]`; if no such
`i` exists it falls back to the unverified all-but-last-2-bytes split. -/
theorem smart_recovery_scan_longest_candidate
    (first : Bool) (st : MState) (cmd : List Nat) (d : Nat) (resp : List Nat)
    (hlen : 2 < resp.length)
    (hA1 : resp ≠ strB "(ACK") (hA2 : resp ≠ strB "ACK")
    (hN1 : resp ≠ strB "(NAK") (hN2 : resp ≠ strB "NAK")
    (hstd : get_crc (stdData resp) ≠ stdCrc resp) :
    (processAttempt first st cmd (.ok (resp ++ [13])) d).2.2
        = .done (.ok (decodeClean (extractRaw resp))) ∧
    ((∃ i, 1 ≤ i ∧ i ≤ resp.length - 2 ∧
        ((resp.take i).all isValidChar = true ∧
          get_crc (resp.take i) = (resp.drop i).take 2) ∧
        extractRaw resp = resp.take i ∧
        ∀ j, i < j → j ≤ resp.length - 2 →
          ¬((resp.take j).all isValidChar = true ∧
            get_crc (resp.take j) = (resp.drop j).take 2)) ∨
      ((∀ i, 1 ≤ i → i ≤ resp.length - 2 →
          ¬((resp.take i).all isValidChar = true ∧
            get_crc (resp.take i) = (resp.drop i).take 2)) ∧
        extractRaw resp = stdData resp)) := by
  constructor
  · simp only [processAttempt, List.getLast?_concat, List.dropLast_concat, if_true]
    rw [if_neg (not_or.mpr ⟨hA1, hA2⟩), if_neg (not_or.mpr ⟨hN1, hN2⟩),
      if_neg (by simp : ¬(resp ++ [13] = []))]
  · have hx : extractRaw resp =
        (match (smartScan resp (resp.length - 2)).1 with
         | some c => c
         | none => stdData resp) := by
      unfold extractRaw
      rw [if_pos hlen, if_neg hstd]
    rcases hscan : (smartScan resp (resp.length - 2)).1 with _ | c
    · right
      rw [hscan] at hx
      exact ⟨smartScan_none_spec resp _ hscan, hx⟩
    · left
      rw [hscan] at hx
      obtain ⟨i, hi1, hi2, hP, hd, hmax⟩ := smartScan_some_spec resp _ c hscan
      exact ⟨i, hi1, hi2, hP, by rw [hx, hd], hmax⟩

/-- C1 witness: the concrete response `b"(TEST" + crc(b"(TEST") +
b"\xff"` (garbage byte appended after a correctly checksummed payload)
instantiates the theorem; the recovered prefix is `b"(TEST"`. -/
theorem smart_recovery_scan_longest_candidate_witness :
    (processAttempt true ⟨[], 0, 1000⟩ (strB "QPIGS")
        (.ok ((strB "(TEST" ++ [2, 147, 255]) ++ [13])) 0).2.2
        = .done (.ok (decodeClean (extractRaw (strB "(TEST" ++ [2, 147, 255])))) ∧
    ((∃ i, 1 ≤ i ∧ i ≤ (strB "(TEST" ++ [2, 147, 255]).length - 2 ∧
        (((strB "(TEST" ++ [2, 147, 255]).take i).all isValidChar = true ∧
          get_crc ((strB "(TEST" ++ [2, 147, 255]).take i)
            = ((strB "(TEST" ++ [2, 147, 255]).drop i).take 2) ∧
        extractRaw (strB "(TEST" ++ [2, 147, 255])
          = (strB "(TEST" ++ [2, 147, 255]).take i ∧
        ∀ j, i < j → j ≤ (strB "(TEST" ++ [2, 147, 255]).length - 2 →
          ¬(((strB "(TEST" ++ [2, 147, 255]).take j).all isValidChar = true ∧
            get_crc ((strB "(TEST" ++ [2, 147, 255]).take j)
              = ((strB "(TEST" ++ [2, 147, 255]).drop j).take 2)) ∨
      ((∀ i, 1 ≤ i → i ≤ (strB "(TEST" ++ [2, 147, 255]).length - 2 →
          ¬(((strB "(TEST" ++ [2, 147, 255]).take i).all isValidChar = true ∧
            get_crc ((strB "(TEST" ++ [2, 147, 255]).take i)
              = ((strB "(TEST" ++ [2, 147, 255]).drop i).take 2)) ∧
        extractRaw (strB "(TEST" ++ [2, 147, 255])
          = stdData (strB "(TEST" ++ [2, 147, 255]))) :=
  smart_recovery_scan_longest_candidate true ⟨[], 0, 1000⟩ (strB "QPIGS") 0
    (strB "(TEST" ++ [2, 147, 255]) (by decide) (by decide) (by decide)
    (by decide) (by decide) (by decide)

/-- C3: `_get_crc` equals the specification's CRC-16/XMODEM reference
(initial register 0, polynomial 0x1021, big-endian output, control bytes
0x28/0x0D/0x0A incremented), always yields exactly 2 bytes, and handles
text input by UTF-8 encoding; it is a total (hence deterministic,
error-free) function. -/
theorem get_crc_matches_reference :
    (∀ da : List Nat, get_crc da = checksumRef da) ∧
    (∀ da : List Nat, (get_crc da).length = 2) ∧
    (∀ s : String, get_crc_of_str s = checksumRef (utf8B s)) :=
  ⟨get_crc_eq_checksumRef, get_crc_length,
   fun s => get_crc_eq_checksumRef (utf8B s)⟩

/-- C4: every frame transmitted by `send_command` is the command bytes,
the 2 checksum bytes, then CR; and recomputing the checksum over the
bytes preceding the last 2 bytes before the CR reproduces exactly those 2
(already escaped) bytes. -/
theorem frame_round_trip
    (st : MState) (cmd : List Nat) (tr1 tr2 : TransportResult) (d1 d2 : Nat)
    (f : List Nat) :
    (Ev.transmit f ∈ (send_command st cmd tr1 tr2 d1 d2).1 → f = frameFor cmd) ∧
    get_crc ((frameFor cmd).dropLast.take ((frameFor cmd).dropLast.length - 2))
      = (frameFor cmd).dropLast.drop ((frameFor cmd).dropLast.length - 2) :=
  ⟨fun h => send_command_transmit st cmd tr1 tr2 d1 d2 f h, frameFor_roundtrip cmd⟩

/-- C4 witness: the `QPIGS` frame is transmitted and satisfies the
round-trip law at a concrete transport run. -/
theorem frame_round_trip_witness :
    Ev.transmit (frameFor (strB "QPIGS"))
        ∈ (send_command ⟨[], 0, 1000⟩ (strB "QPIGS")
            (.ok (strB "(ACK" ++ [13])) (.ok []) 0 0).1 ∧
    frameFor (strB "QPIGS") = frameFor (strB "QPIGS") :=
  ⟨by decide,
   (frame_round_trip ⟨[], 0, 1000⟩ (strB "QPIGS") (.ok (strB "(ACK" ++ [13]))
      (.ok []) 0 0 (frameFor (strB "QPIGS"))).1 (by decide)⟩

/-- C6: a response of `(ACK` (or bare `ACK`) plus CR makes `send_command`
return the sentinel `ACK` in a single attempt, with no checksum
computation over the response. -/
theorem ack_fast_path
    (st : MState) (cmd : List Nat) (tr2 : TransportResult) (d1 d2 : Nat) :
    ((send_command st cmd (.ok (strB "(ACK" ++ [13])) tr2 d1 d2).2.1
        = .ok (strB "ACK") ∧
      countCrc (send_command st cmd (.ok (strB "(ACK" ++ [13])) tr2 d1 d2).1 = 0 ∧
      countOpen (send_command st cmd (.ok (strB "(ACK" ++ [13])) tr2 d1 d2).1 = 1) ∧
    ((send_command st cmd (.ok (strB "ACK" ++ [13])) tr2 d1 d2).2.1
        = .ok (strB "ACK") ∧
      countCrc (send_command st cmd (.ok (strB "ACK" ++ [13])) tr2 d1 d2).1 = 0 ∧
      countOpen (send_command st cmd (.ok (strB "ACK" ++ [13])) tr2 d1 d2).1 = 1) := by
  constructor <;>
    [rw [send_command_unfold,
        processAttempt_ack true (paceSt st) cmd d1 (strB "(ACK") (Or.inl rfl)];
     rw [send_command_unfold,
        processAttempt_ack true (paceSt st) cmd d1 (strB "ACK") (Or.inr rfl)]] <;>
    refine ⟨rfl, ?_, ?_⟩ <;>
    simp [countCrc, countOpen, List.countP_append, List.countP_cons,
      isCrcEv, isOpenEv, paceEvs]

/-- C5: a response equal to `(NAK` (or bare `NAK`) plus CR on the first
attempt and again (in either form) on the retry makes `send_command`
sleep one second after the first NAK, retry exactly once, and fail with
the "not supported" error after exactly 2 attempts; and no call ever
starts more than 2 attempts, whatever the two transport outcomes
(negative acknowledgement or transport error) were — the two retry
triggers share the single-retry budget. -/
theorem nak_retry_exactly_two_attempts
    (st : MState) (cmd : List Nat) (d1 d2 : Nat) (pre1 pre2 : List Nat)
    (h1 : pre1 = strB "(NAK" ∨ pre1 = strB "NAK")
    (h2 : pre2 = strB "(NAK" ∨ pre2 = strB "NAK") :
    ((send_command st cmd (.ok (pre1 ++ [13])) (.ok (pre2 ++ [13])) d1 d2).1
        = paceEvs st ++
          [Ev.openUsb 0x0665 0x5161, Ev.transmit (frameFor cmd), Ev.sleep 1000,
           Ev.openUsb 0x0665 0x5161, Ev.transmit (frameFor cmd)] ∧
      (send_command st cmd (.ok (pre1 ++ [13])) (.ok (pre2 ++ [13])) d1 d2).2.1
        = .errNotSupported ∧
      countOpen (send_command st cmd (.ok (pre1 ++ [13]))
          (.ok (pre2 ++ [13])) d1 d2).1 = 2) ∧
    ∀ (st2 : MState) (cmd2 : List Nat) (tr1 tr2 : TransportResult) (d3 d4 : Nat),
      countOpen (send_command st2 cmd2 tr1 tr2 d3 d4).1 ≤ 2 := by
  refine ⟨?_, send_command_countOpen⟩
  rcases h2 with h2 | h2 <;> subst h2 <;>
    [have e2 := fun s =>
        processAttempt_nak_second s cmd d2 (strB "(NAK") (Or.inl rfl);
     have e2 := fun s =>
        processAttempt_nak_second s cmd d2 (strB "NAK") (Or.inr rfl)] <;>
  · rw [send_command_unfold]
    simp only [processAttempt_nak_first (paceSt st) cmd d1 pre1 h1, e2]
    have hp := paceEvs_countOpen st
    unfold countOpen at hp ⊢
    refine ⟨by simp, trivial, ?_⟩
    simp [List.countP_append, List.countP_cons, isOpenEv, hp]

/-- C5 witness: a concrete call answered `(NAK` on the first attempt and
bare `NAK` on the retry performs exactly 2 attempts with a 1 s sleep
between them and fails "not supported". -/
theorem nak_retry_exactly_two_attempts_witness :
    (send_command ⟨[], 0, 1000⟩ (strB "QPIGS")
        (.ok (strB "(NAK" ++ [13])) (.ok (strB "NAK" ++ [13])) 0 0).1
      = paceEvs ⟨[], 0, 1000⟩ ++
        [Ev.openUsb 0x0665 0x5161, Ev.transmit (frameFor (strB "QPIGS")),
         Ev.sleep 1000, Ev.openUsb 0x0665 0x5161,
         Ev.transmit (frameFor (strB "QPIGS"))] ∧
    (send_command ⟨[], 0, 1000⟩ (strB "QPIGS")
        (.ok (strB "(NAK" ++ [13])) (.ok (strB "NAK" ++ [13])) 0 0).2.1
      = .errNotSupported ∧
    countOpen (send_command ⟨[], 0, 1000⟩ (strB "QPIGS")
        (.ok (strB "(NAK" ++ [13])) (.ok (strB "NAK" ++ [13])) 0 0).1 = 2 :=
  (nak_retry_exactly_two_attempts ⟨[], 0, 1000⟩ (strB "QPIGS") 0 0
    (strB "(NAK") (strB "NAK") (by decide) (by decide)).1

/-- C8: every `send_command` call first sleeps the remainder to 500 ms
since `_last_command_time` (before any transmission) when the elapsed
time is below 500 ms, and opens the device immediately otherwise; and the
`_last_command_time` stamp equals the clock at the end of the call and at
the exit of every attempt, success, retry or failure. -/
theorem pacing_and_timestamp_invariant
    (st : MState) (cmd : List Nat) (tr1 tr2 : TransportResult) (d1 d2 : Nat) :
    (st.now - st.lastCommandTime < 500 →
      (send_command st cmd tr1 tr2 d1 d2).1.head?
        = some (Ev.sleep (500 - (st.now - st.lastCommandTime)))) ∧
    (¬ st.now - st.lastCommandTime < 500 →
      (send_command st cmd tr1 tr2 d1 d2).1.head?
        = some (Ev.openUsb 0x0665 0x5161)) ∧
    (send_command st cmd tr1 tr2 d1 d2).2.2.lastCommandTime
      = (send_command st cmd tr1 tr2 d1 d2).2.2.now ∧
    ∀ (first : Bool) (stA : MState) (tr : TransportResult) (d : Nat),
      ((processAttempt first stA cmd tr d).2.1).lastCommandTime
        = ((processAttempt first stA cmd tr d).2.1).now :=
  ⟨send_command_head_pace st cmd tr1 tr2 d1 d2,
   send_command_head_nopace st cmd tr1 tr2 d1 d2,
   send_command_timestamp st cmd tr1 tr2 d1 d2,
   fun first stA tr d => processAttempt_timestamp first stA cmd tr d⟩

/-- C8 witness: with 200 ms elapsed, the call starts by sleeping the
remaining 300 ms. -/
theorem pacing_and_timestamp_invariant_witness :
    (⟨[], 0, 200⟩ : MState).now - (⟨[], 0, 200⟩ : MState).lastCommandTime < 500 ∧
    (send_command ⟨[], 0, 200⟩ (strB "QPIGS") (.ok (strB "(ACK" ++ [13]))
        (.ok []) 0 0).1.head? = some (Ev.sleep 300) :=
  ⟨by decide,
   (pacing_and_timestamp_invariant ⟨[], 0, 200⟩ (strB "QPIGS")
      (.ok (strB "(ACK" ++ [13])) (.ok []) 0 0).1 (by decide)⟩

/-- C10: the stored `device_path` has no influence on `send_command` (nor
on the setters built on it): the trace, result and timing state are
identical for any two paths, and every device open uses the fixed USB ids
0x0665:0x5161, never the stored path. -/
theorem device_path_has_no_influence
    (p1 p2 : List Nat) (l n : Nat) (cmd : List Nat)
    (tr1 tr2 : TransportResult) (d1 d2 : Nat) (c : ℤ) (v pid : Nat) :
    (send_command ⟨p1, l, n⟩ cmd tr1 tr2 d1 d2).1
      = (send_command ⟨p2, l, n⟩ cmd tr1 tr2 d1 d2).1 ∧
    (send_command ⟨p1, l, n⟩ cmd tr1 tr2 d1 d2).2.1
      = (send_command ⟨p2, l, n⟩ cmd tr1 tr2 d1 d2).2.1 ∧
    (send_command ⟨p1, l, n⟩ cmd tr1 tr2 d1 d2).2.2.lastCommandTime
      = (send_command ⟨p2, l, n⟩ cmd tr1 tr2 d1 d2).2.2.lastCommandTime ∧
    (send_command ⟨p1, l, n⟩ cmd tr1 tr2 d1 d2).2.2.now
      = (send_command ⟨p2, l, n⟩ cmd tr1 tr2 d1 d2).2.2.now ∧
    (set_max_charging_current ⟨p1, l, n⟩ c tr1 tr2 d1 d2).2.1
      = (set_max_charging_current ⟨p2, l, n⟩ c tr1 tr2 d1 d2).2.1 ∧
    (Ev.openUsb v pid ∈ (send_command ⟨p1, l, n⟩ cmd tr1 tr2 d1 d2).1 →
      v = 0x0665 ∧ pid = 0x5161) := by
  refine ⟨(send_command_path p1 p2 l n cmd tr1 tr2 d1 d2).1,
    (send_command_path p1 p2 l n cmd tr1 tr2 d1 d2).2.1,
    (send_command_path p1 p2 l n cmd tr1 tr2 d1 d2).2.2.1,
    (send_command_path p1 p2 l n cmd tr1 tr2 d1 d2).2.2.2, ?_, ?_⟩
  · simp only [set_max_charging_current]
    rw [(send_command_path p1 p2 l n (strB "MNCHGC" ++ formatInt03 c)
        tr1 tr2 d1 d2).2.1]
  · exact send_command_open ⟨p1, l, n⟩ cmd tr1 tr2 d1 d2 v pid

/-- C10 witness: a concrete run opens the device with the fixed
identifiers regardless of the stored path. -/
theorem device_path_has_no_influence_witness :
    Ev.openUsb 0x0665 0x5161
        ∈ (send_command ⟨strB "/dev/hidraw0", 0, 1000⟩ (strB "QPIGS")
            (.ok (strB "(ACK" ++ [13])) (.ok []) 0 0).1 ∧
    ((0x0665 : Nat) = 0x0665 ∧ (0x5161 : Nat) = 0x5161) :=
  ⟨by decide,
   (device_path_has_no_influence (strB "/dev/hidraw0") [] 0 1000 (strB "QPIGS")
      (.ok (strB "(ACK" ++ [13])) (.ok []) 0 0 60 0x0665 0x5161).2.2.2.2.2
     (by decide)⟩

/-- C2 (code-bug evidence): a 19-field QPIGS payload with fields 0-16
well-formed makes `get_general_status` return the EMPTY mapping: the
`len(parts) > 16` guard triggers `int(parts[19])`, which raises
`IndexError` (index 19 is absent), caught by the handler that returns
`{}`.  The same happens to the specification's own 17-field example
scenario; with 20 fields (index 19 present) the full mapping including
`pv_charging_power` is produced, isolating the absent-field case as the
failure trigger. -/
theorem qpigs_nineteen_fields_returns_empty :
    (splitWs (strB "000.0 00.0 230.0 50.0 0046 0002 000 371 53.20 001 080 0026 0001 089.9 53.13 00000 00110110 00 00")).length = 19 ∧
    get_general_status (strB "000.0 00.0 230.0 50.0 0046 0002 000 371 53.20 001 080 0026 0001 089.9 53.13 00000 00110110 00 00") = [] ∧
    (splitWs (strB "000.0 00.0 230.0 50.0 0046 0002 000 371 53.20 001 080 0026 0001 089.9 53.13 00000 00110110")).length = 17 ∧
    get_general_status (strB "000.0 00.0 230.0 50.0 0046 0002 000 371 53.20 001 080 0026 0001 089.9 53.13 00000 00110110") = [] ∧
    (get_general_status (strB "000.0 00.0 230.0 50.0 0046 0002 000 371 53.20 001 080 0026 0001 089.9 53.13 00000 00110110 00 00 00856")).map Prod.fst
      = qpigsKeys ++ ["pv_charging_power"] :=
  ⟨by decide, by decide, by decide, by decide, by decide⟩

/-- C7: a decoded QPIGS payload with fewer than 16 whitespace-separated
fields yields the empty mapping, and for every payload the result is
never partial: it is empty, or carries exactly the 17 base field names,
or those plus `pv_charging_power`. -/
theorem qpigs_short_payload_soft_fail (raw : List Nat) :
    ((splitWs raw).length < 16 → get_general_status raw = []) ∧
    (get_general_status raw = [] ∨
      (get_general_status raw).map Prod.fst = qpigsKeys ∨
      (get_general_status raw).map Prod.fst = qpigsKeys ++ ["pv_charging_power"]) := by
  constructor
  · intro hlen
    simp only [get_general_status]
    split_ifs <;> rfl
  · simp only [get_general_status]
    split_ifs with h1 h2
    · exact Or.inl rfl
    · exact Or.inl rfl
    · rcases hq : qpigsData (splitWs raw) with _ | d <;> simp only [hq]
      · trivial
      · exact Or.inr (qpigsData_keys _ _ hq)

/-- C7 witness: a 10-field payload has fewer than 16 fields and decodes
to the empty mapping. -/
theorem qpigs_short_payload_soft_fail_witness :
    (splitWs (strB "0 1 2 3 4 5 6 7 8 9")).length < 16 ∧
    get_general_status (strB "0 1 2 3 4 5 6 7 8 9") = [] :=
  ⟨by decide,
   (qpigs_short_payload_soft_fail (strB "0 1 2 3 4 5 6 7 8 9")).1
     (by decide)⟩

/-- C9 counterexample: the claim "returns true if and only if the decoded
response was the sentinel ACK" is false: a decoded payload `ACKX` (from a
correctly checksummed response `(ACKX`) is not the sentinel, yet
`set_max_charging_current` returns `True`, because the code tests
substring containment (`"ACK" in response`). -/
theorem setter_ack_substring_counterexample :
    (send_command ⟨[], 0, 1000⟩ (strB "MNCHGC" ++ formatInt03 60)
        (.ok (strB "(ACKX" ++ [92, 135, 13])) (.ok []) 0 0).2.1
      = .ok (strB "ACKX") ∧
    strB "ACKX" ≠ strB "ACK" ∧
    (set_max_charging_current ⟨[], 0, 1000⟩ 60
        (.ok (strB "(ACKX" ++ [92, 135, 13])) (.ok []) 0 0).2.1 = some true :=
  ⟨by decide, by decide, by decide⟩

/-- C9 as amended: every setter formats its argument at fixed width into
the known mnemonic (`set_max_charging_current` transmits `MNCHGC` plus
the current zero-padded to 3 digits, `set_output_source_priority`
transmits `POP` plus the priority) and returns true if and only if the
string `ACK` occurs as a substring of the decoded response — in
particular the sentinel response `ACK` yields true. -/
theorem setter_formats_and_tests_substring
    (st : MState) (c : ℤ) (prio : List Nat) (tr1 tr2 : TransportResult)
    (d1 d2 : Nat) (f s : List Nat) :
    (Ev.transmit f ∈ (set_max_charging_current st c tr1 tr2 d1 d2).1 →
      f = frameFor (strB "MNCHGC" ++ formatInt03 c)) ∧
    (Ev.transmit f ∈ (set_output_source_priority st prio tr1 tr2 d1 d2).1 →
      f = frameFor (strB "POP" ++ prio)) ∧
    ((send_command st (strB "MNCHGC" ++ formatInt03 c) tr1 tr2 d1 d2).2.1
        = .ok s →
      ((set_max_charging_current st c tr1 tr2 d1 d2).2.1
          = some (containsSub (strB "ACK") s) ∧
        (s = strB "ACK" →
          (set_max_charging_current st c tr1 tr2 d1 d2).2.1 = some true))) := by
  refine ⟨?_, ?_, ?_⟩
  · intro h
    simp only [set_max_charging_current] at h
    exact send_command_transmit st _ tr1 tr2 d1 d2 f h
  · intro h
    simp only [set_output_source_priority] at h
    exact send_command_transmit st _ tr1 tr2 d1 d2 f h
  · intro hok
    have hset : (set_max_charging_current st c tr1 tr2 d1 d2).2.1
        = some (containsSub (strB "ACK") s) := by
      simp only [set_max_charging_current]
      rw [hok]
    refine ⟨hset, fun hs => ?_⟩
    rw [hset, hs]
    decide

/-- C9 witness: with the sentinel `ACK` response, the setter reports the
substring test of `ACK` in `ACK`, i.e. `True`. -/
theorem setter_formats_and_tests_substring_witness :
    (send_command ⟨[], 0, 1000⟩ (strB "MNCHGC" ++ formatInt03 60)
        (.ok (strB "(ACK" ++ [13])) (.ok []) 0 0).2.1 = .ok (strB "ACK") ∧
    (set_max_charging_current ⟨[], 0, 1000⟩ 60 (.ok (strB "(ACK" ++ [13]))
        (.ok []) 0 0).2.1 = some (containsSub (strB "ACK") (strB "ACK")) :=
  ⟨by decide,
   ((setter_formats_and_tests_substring ⟨[], 0, 1000⟩ 60 (strB "00")
      (.ok (strB "(ACK" ++ [13])) (.ok []) 0 0 [] (strB "ACK")).2.2
     (by decide)).1⟩

end Axpert
